import Mathlib

/-!
Verification of the circuit grid model and snap/placement engine of the
QC_composer application (source file `통합ver_2.3.py`).

The Python source is shallowly embedded: the `CircuitView` state
(`n_qubits`, the `circuit` dict, per-gate `row`/`col`/`angle` fields, the
scene membership of gate items, `palette_gate`, `reserved_columns`) becomes
an explicit record, and each method (`snap_gate`, `draw_all`, `add_q`,
`del_q`, `export_gate_infos`, `build_qiskit_circuit`, `export_qiskit`)
becomes a pure function on that record.  Pixel coordinates are modelled as
exact integers (every constant of the source — offsets, cell sizes, the
trash rectangle, `WIDTH/2 = 23`, `HEIGHT/2 = 17` — is an integer, so all
positions the code computes are integers); the one rational quantity,
`round((coordinate - offset) / cellSize)`, is Python's round-half-to-even,
implemented exactly on integers by `pyRoundDiv`.
-/

namespace QCComposer

/-- The closed set of gate-type tags used by the source
(`"H" "X" "Y" "Z" "RX" "RY" "RZ" "CTRL" "X_T" "Z_T" "MEASURE" "ORACLE"`). -/
inductive GType where
  | H | X | Y | Z | RX | RY | RZ | CTRL | X_T | Z_T | MEASURE | ORACLE
deriving DecidableEq, Repr

/-- Per-`GateItem` mutable state: `gate_type`, the `row`/`col` fields
(both `None` or both set, modelled as one optional cell), the optional
rotation `angle` (an opaque numeric, modelled as `Int`), and the scene
position last assigned by `setPos` (top-left corner, pixels). -/
structure GateData where
  gtype : GType
  pos : Option (Nat × Nat)
  angle : Option Int
  scenePos : Int × Int
deriving DecidableEq, Repr

/-- A grid cell key of the `circuit` dict: `(row, col)`. -/
abbrev Cell := Nat × Nat

/-- The state of a `CircuitView` (plus the qubit-count owned by
`ComposerTab`).  `circuit` is the Python dict `cell -> GateItem`,
embedded as an association list with unique keys; gate items are
referenced by numeric ids resolved through `gates`. -/
structure CVState where
  n_qubits : Nat
  circuit : List (Cell × Nat)
  gates : Nat → GateData
  scene : List Nat
  palette_gate : Option Nat
  reserved_columns : List Nat
  oracle_present : Bool

/-! ### Configuration constants (`CONFIG` section of the source) -/

def MAX_QUBITS : Nat := 8
def CELL_WIDTH : Int := 55
def ROW_HEIGHT : Int := 85
def X_OFFSET : Int := 80
def Y_OFFSET : Int := 90
def MAX_COLS : Nat := 17

/-! ### Small helpers over the embedded dict and gate store -/

/-- `circuit.get(p)` / `p in circuit`. -/
def lookupCell (l : List (Cell × Nat)) (p : Cell) : Option Nat :=
  match l.find? (fun e => decide (e.1 = p)) with
  | some e => some e.2
  | none => none

/-- `del circuit[p]` / `circuit.pop(p, None)`. -/
def eraseCell (l : List (Cell × Nat)) (p : Cell) : List (Cell × Nat) :=
  l.filter (fun e => decide (e.1 ≠ p))

/-- `circuit[p] = gid`: dict assignment keeps the position of an existing
key and appends a fresh key at the end. -/
def dinsert (l : List (Cell × Nat)) (p : Cell) (gid : Nat) : List (Cell × Nat) :=
  if (lookupCell l p).isSome then
    l.map (fun e => if e.1 = p then (p, gid) else e)
  else
    l ++ [(p, gid)]

/-- Pointwise update of the gate store. -/
def fupd (f : Nat → GateData) (i : Nat) (v : GateData) : Nat → GateData :=
  fun j => if j = i then v else f j

/-- Update one gate's data. -/
def setGate (s : CVState) (gid : Nat) (f : GateData → GateData) : CVState :=
  { s with gates := fupd s.gates gid (f (s.gates gid)) }

/-- `scene.removeItem(g)`. -/
def removeItem (s : CVState) (gid : Nat) : CVState :=
  { s with scene := s.scene.filter (fun x => decide (x ≠ gid)) }

/-- `if g is self.palette_gate: self.palette_gate = None`. -/
def clearPaletteIf (s : CVState) (gid : Nat) : CVState :=
  if s.palette_gate = some gid then { s with palette_gate := none } else s

/-- Python's `round(a / b)` (for `b > 0`) computed exactly on integers:
round half to even.  `f` is the floor of `a / b` and `r2 = 2·(a − f·b)` is
twice the fractional remainder scaled by `b`. -/
def pyRoundDiv (a b : Int) : Int :=
  let f := a.fdiv b
  let r2 := 2 * (a - f * b)
  if r2 < b then f
  else if b < r2 then f + 1
  else if f % 2 = 0 then f else f + 1

/-- The top-left scene position assigned by
`setPos(X_OFFSET + col*CELL_WIDTH - WIDTH/2, Y_OFFSET + row*ROW_HEIGHT - HEIGHT/2)`
for a `GateItem` (`WIDTH = 46`, `HEIGHT = 34`). -/
def cellTopLeft (r c : Nat) : Int × Int :=
  (X_OFFSET + (c : Int) * CELL_WIDTH - 23, Y_OFFSET + (r : Int) * ROW_HEIGHT - 17)

/-- `CircuitView._is_valid_column`: at most one `X_T`/`Z_T` gate registered
in the given column (no self-exclusion). -/
def is_valid_column (s : CVState) (col : Nat) : Bool :=
  decide ((s.circuit.filter (fun e => decide (e.1.2 = col) &&
      decide ((s.gates e.2).gtype = GType.X_T ∨ (s.gates e.2).gtype = GType.Z_T))).length ≤ 1)

/-- `CircuitView.draw_all` (the second, active definition): removes from the
scene every `GateItem` whose `(row, col)` key is not a key of `circuit`,
drops the palette gate, evicts circuit entries with `row ≥ n_qubits`,
re-adds the remaining circuit gates to the scene and re-snaps their scene
positions to their key cells. -/
def draw_all (s : CVState) : CVState :=
  let scene1 := s.scene.filter (fun gid =>
    match (s.gates gid).pos with
    | some p => (lookupCell s.circuit p).isSome
    | none => false)
  let scene2 := match s.palette_gate with
    | some pg => scene1.filter (fun x => decide (x ≠ pg))
    | none => scene1
  let circuit2 := s.circuit.filter (fun e => decide (e.1.1 < s.n_qubits))
  let scene3 := circuit2.foldl (fun sc e => if sc.contains e.2 then sc else sc ++ [e.2]) scene2
  let gates2 := circuit2.foldl
    (fun gs e => fupd gs e.2 { gs e.2 with scenePos := cellTopLeft e.1.1 e.1.2 }) s.gates
  { s with circuit := circuit2, scene := scene3, gates := gates2, palette_gate := none }

/-- The tail of `snap_gate` after the collision handling (step (6) swap):
the `_is_valid_column` re-check, the reserved-column check, and the final
commit (7)/(8).  `existing` is the Python local of the same name, `old`
the saved prior cell, `nw` the destination cell. -/
def snapFinish (s2 : CVState) (gid : Nat) (existing : Option Nat)
    (old : Option Cell) (nw : Cell) : CVState :=
  if ¬ (is_valid_column s2 nw.2) then
    let s3 := match old with
      | some o => setGate { s2 with circuit := dinsert s2.circuit o gid } gid
          (fun gd => { gd with pos := some o, scenePos := cellTopLeft o.1 o.2 })
      | none => removeItem s2 gid
    match existing with
    | some eid => { s3 with circuit := dinsert s3.circuit nw eid }
    | none => s3
  else if nw.2 ∈ s2.reserved_columns then
    match (s2.gates gid).pos with
    | some p => setGate s2 gid (fun gd => { gd with scenePos := cellTopLeft p.1 p.2 })
    | none => removeItem s2 gid
  else
    let s3 := setGate { s2 with circuit := dinsert s2.circuit nw gid } gid
      (fun gd => { gd with pos := some nw, scenePos := cellTopLeft nw.1 nw.2 })
    draw_all (clearPaletteIf s3 gid)

/-- `CircuitView.snap_gate`, called with the dragged gate's center pixel
coordinates `(cx, cy)` (in the source: `g.pos() + (WIDTH/2, HEIGHT/2)`).
The trash rectangle is `QRectF(right - 90, 10, 70, 60)` with
`right = X_OFFSET + CELL_WIDTH * MAX_COLS = 1015`. -/
def snap_gate (s : CVState) (gid : Nat) (cx cy : Int) : CVState :=
  let g := s.gates gid
  if g.gtype = GType.ORACLE then s
  else if 925 ≤ cx ∧ cx ≤ 995 ∧ 10 ≤ cy ∧ cy ≤ 70 then
    -- (1) trash zone: pop the key taken from the gate's fields, detach
    let s1 := match g.pos with
      | some p => { s with circuit := eraseCell s.circuit p }
      | none => s
    draw_all (clearPaletteIf (removeItem s1 gid) gid)
  else if cy < Y_OFFSET - 40 then
    -- (2) palette zone: pop, clear the row/col fields, detach
    let s1 := match g.pos with
      | some p => setGate { s with circuit := eraseCell s.circuit p } gid
          (fun gd => { gd with pos := none })
      | none => s
    draw_all (clearPaletteIf (removeItem s1 gid) gid)
  else
    -- (3) nearest cell, unclamped
    let cc : Int := pyRoundDiv (cx - X_OFFSET) CELL_WIDTH
    let rr : Int := pyRoundDiv (cy - Y_OFFSET) ROW_HEIGHT
    let old := g.pos
    if rr < 0 ∨ (s.n_qubits : Int) ≤ rr ∨ cc < 0 ∨ (MAX_COLS : Int) ≤ cc then
      match old with
      | some o =>
        setGate { s with circuit := dinsert s.circuit o gid } gid
          (fun gd => { gd with pos := some o, scenePos := cellTopLeft o.1 o.2 })
      | none => clearPaletteIf (removeItem s gid) gid
    else
      let col : Nat := (max 0 (min cc ((MAX_COLS : Int) - 1))).toNat
      let row : Nat := (max 0 (min rr ((s.n_qubits : Int) - 1))).toNat
      let nw : Cell := (row, col)
      -- (4) multi-target / repeated-measure rejection
      let other_targets := s.circuit.filter (fun e =>
        decide (e.1.2 = col) &&
        decide ((s.gates e.2).gtype = GType.X_T ∨ (s.gates e.2).gtype = GType.Z_T) &&
        decide (e.2 ≠ gid))
      let other_measures := s.circuit.filter (fun e =>
        decide (e.1.1 = row) && decide ((s.gates e.2).gtype = GType.MEASURE) &&
        decide (e.2 ≠ gid))
      if (g.gtype = GType.X_T ∨ g.gtype = GType.Z_T) ∧ other_targets ≠ [] then
        match old with
        | none => draw_all (clearPaletteIf (removeItem s gid) gid)
        | some o => setGate s gid (fun gd => { gd with scenePos := cellTopLeft o.1 o.2 })
      else if g.gtype = GType.MEASURE ∧ other_measures ≠ [] then
        match old with
        | none => draw_all (clearPaletteIf (removeItem s gid) gid)
        | some o => setGate s gid (fun gd => { gd with scenePos := cellTopLeft o.1 o.2 })
      else
        -- (5) remove the prior entry
        let s1 := match old with
          | some o => { s with circuit := eraseCell s.circuit o }
          | none => s
        -- (6) occupant handling
        let existing := lookupCell s1.circuit nw
        match existing with
        | some eid =>
          if eid ≠ gid then
            match old with
            | none => clearPaletteIf (removeItem s1 gid) gid
            | some o =>
              let s2 := setGate { s1 with circuit := dinsert s1.circuit o eid } eid
                (fun gd => { gd with pos := some o, scenePos := cellTopLeft o.1 o.2 })
              snapFinish s2 gid existing old nw
          else snapFinish s1 gid existing old nw
        | none => snapFinish s1 gid existing old nw

/-- `CircuitView.get_oracle_column`: `MAX_COLS // 2`. -/
def get_oracle_column : Nat := MAX_COLS / 2

/-- `CircuitView.insert_oracle_gate`: marks the oracle column reserved
(the Oracle placeholder itself is a scene-only item, never in `circuit`). -/
def insert_oracle_gate (s : CVState) : CVState :=
  if s.oracle_present then s
  else { s with oracle_present := true,
                reserved_columns := s.reserved_columns ++ [get_oracle_column] }

/-- `ComposerTab.add_q`. -/
def add_q (s : CVState) : CVState :=
  if MAX_QUBITS ≤ s.n_qubits then s
  else draw_all { s with n_qubits := s.n_qubits + 1 }

/-- `ComposerTab.del_q`: evicts the topmost row's entries (detaching their
items), decrements, then redraws. -/
def del_q (s : CVState) : CVState :=
  if s.n_qubits ≤ 1 then s
  else
    let remove_row := s.n_qubits - 1
    let evicted : List Nat := (s.circuit.filter (fun e => decide (e.1.1 = remove_row))).map Prod.snd
    let s1 := { s with
      circuit := s.circuit.filter (fun e => decide (e.1.1 ≠ remove_row)),
      scene := s.scene.filter (fun gid => decide (gid ∉ evicted)) }
    draw_all { s1 with n_qubits := s.n_qubits - 1 }

/-! ### Circuit compiler (`export_gate_infos`, `build_qiskit_circuit`,
`export_qiskit`) -/

/-- The `GateInfo` dataclass. -/
structure GateInfo where
  gate_type : GType
  row : Nat
  col : Nat
  angle : Option Int := none
deriving DecidableEq, Repr

/-- One registry entry turned into a `GateInfo` by `export_gate_infos`:
`ang = g.angle if g.gate_type in ("RX","RY","RZ") and g.angle is not None else 0`. -/
def toInfo (r c : Nat) (g : GateData) : GateInfo :=
  { gate_type := g.gtype, row := r, col := c,
    angle := some (if (g.gtype = GType.RX ∨ g.gtype = GType.RY ∨ g.gtype = GType.RZ)
                      ∧ g.angle ≠ none
                   then g.angle.getD 0 else 0) }

/-- The sort order of `sorted(out, key=lambda x: (x.col, x.row))`:
lexicographic on the `(col, row)` pair. -/
def infoLe (a b : GateInfo) : Prop :=
  a.col < b.col ∨ (a.col = b.col ∧ a.row ≤ b.row)

instance : DecidableRel infoLe := fun a b =>
  inferInstanceAs (Decidable (a.col < b.col ∨ (a.col = b.col ∧ a.row ≤ b.row)))

instance : IsTotal GateInfo infoLe where
  total x y := by unfold infoLe; omega

instance : IsTrans GateInfo infoLe where
  trans x y z hxy hyz := by unfold infoLe at *; omega

/-- `CircuitView.export_gate_infos`: every registry entry as a `GateInfo`,
sorted by `(col, row)`. -/
def export_gate_infos (s : CVState) : List GateInfo :=
  List.insertionSort infoLe (s.circuit.map (fun e => toInfo e.1.1 e.1.2 (s.gates e.2)))

/-- One logical operation applied to the Qiskit circuit (`qc.h`, `qc.x`, …,
`qc.mcx`, `qc.measure`). -/
inductive Op where
  | h (q : Nat) | x (q : Nat) | y (q : Nat) | z (q : Nat)
  | rx (theta : Int) (q : Nat) | ry (theta : Int) (q : Nat) | rz (theta : Int) (q : Nat)
  | cx (c t : Nat) | cz (c t : Nat)
  | mcx (cs : List Nat) (t : Nat) | mcz (cs : List Nat) (t : Nat)
  | measure (q c : Nat)
deriving DecidableEq, Repr

/-- The single-qubit branch of loop A of `build_qiskit_circuit`
(`H`/`X`/`Y`/`Z`/`RX`/`RY`/`RZ`; rotation angles default to 0 when absent). -/
def singleOp (g : GateInfo) : Option Op :=
  match g.gate_type with
  | GType.H => some (Op.h g.row)
  | GType.X => some (Op.x g.row)
  | GType.Y => some (Op.y g.row)
  | GType.Z => some (Op.z g.row)
  | GType.RX => some (Op.rx (g.angle.getD 0) g.row)
  | GType.RY => some (Op.ry (g.angle.getD 0) g.row)
  | GType.RZ => some (Op.rz (g.angle.getD 0) g.row)
  | _ => none

/-- The measurement branch (loop C of `build_qiskit_circuit`):
`qc.measure(g.row, g.row)`. -/
def measOp (g : GateInfo) : Option Op :=
  match g.gate_type with
  | GType.MEASURE => some (Op.measure g.row g.row)
  | _ => none

/-- The control/target block (B) shared by `build_qiskit_circuit` and
`export_qiskit`: `if len(xt)==1` emit X/CX/MCX by the number of controls,
then `if len(zt)==1` emit Z/CZ/MCZ likewise. -/
def ctOps (ops : List GateInfo) : List Op :=
  let ctrls := (ops.filter (fun g => decide (g.gate_type = GType.CTRL))).map (fun g => g.row)
  let xt := (ops.filter (fun g => decide (g.gate_type = GType.X_T))).map (fun g => g.row)
  let zt := (ops.filter (fun g => decide (g.gate_type = GType.Z_T))).map (fun g => g.row)
  (match xt with
   | [t] =>
     [match ctrls with
      | [] => Op.x t
      | [c] => Op.cx c t
      | _ => Op.mcx ctrls t]
   | _ => []) ++
  (match zt with
   | [t] =>
     [match ctrls with
      | [] => Op.z t
      | [c] => Op.cz c t
      | _ => Op.mcz ctrls t]
   | _ => [])

/-- The ascending list of occupied columns: `sorted(bycol)` where `bycol`
is keyed by the distinct columns of the infos. -/
def colsSorted (infos : List GateInfo) : List Nat :=
  List.insertionSort (· ≤ ·) (infos.map (fun g => g.col)).dedup

/-- The operations `build_qiskit_circuit` applies for one column's gates:
loop A (single-qubit, in info order), block B (control/target), loop C
(measurements, in info order). -/
def buildColGroup (ops : List GateInfo) : List Op :=
  ops.filterMap singleOp ++ ctOps ops ++ ops.filterMap measOp

/-- `ComposerTab.build_qiskit_circuit` as the sequence of operations applied
to the `QuantumCircuit`, column by ascending column. -/
def buildOps (infos : List GateInfo) : List Op :=
  (colsSorted infos).flatMap
    (fun c => buildColGroup (infos.filter (fun g => decide (g.col = c))))

/-- The first loop of `export_qiskit`, which (unlike loop A of
`build_qiskit_circuit`) also emits `qc.measure` statements inline. -/
def smOp (g : GateInfo) : Option Op :=
  match g.gate_type with
  | GType.MEASURE => some (Op.measure g.row g.row)
  | _ => singleOp g

/-- The statements `export_qiskit` emits for one column (comment lines are
not statements). -/
def exportColGroup (ops : List GateInfo) : List Op :=
  ops.filterMap smOp ++ ctOps ops

/-- `ComposerTab.export_qiskit` as the sequence of emitted `qc.*`
statements, one per `code.append` of a statement line. -/
def exportOps (infos : List GateInfo) : List Op :=
  (colsSorted infos).flatMap
    (fun c => exportColGroup (infos.filter (fun g => decide (g.col = c))))

/-! ### Claim-level observations on states -/

/-- Number of registry entries in column `c` whose gate kind is a target
(`X_T` or `Z_T`). -/
def countTargetsCol (s : CVState) (c : Nat) : Nat :=
  (s.circuit.filter (fun e => decide (e.1.2 = c) &&
    decide ((s.gates e.2).gtype = GType.X_T ∨ (s.gates e.2).gtype = GType.Z_T))).length

/-- Number of registry entries in row `r` whose gate kind is `MEASURE`. -/
def countMeasuresRow (s : CVState) (r : Nat) : Nat :=
  (s.circuit.filter (fun e => decide (e.1.1 = r) &&
    decide ((s.gates e.2).gtype = GType.MEASURE))).length

/-! ### Concrete initial states and traces -/

/-- A freshly spawned palette clone (`GateItem(label, gate_type)`:
`row = col = None`, `angle = None`). -/
def mkGate (t : GType) : GateData :=
  { gtype := t, pos := none, angle := none, scenePos := (0, 0) }

/-- Resolve gate ids in an initial store. -/
def gatesFrom (l : List GateData) : Nat → GateData :=
  fun i => l.getD i (mkGate GType.H)

/-- The application's initial state (`N_QUBITS = 3`, empty circuit), with
the given drag clones already added to the scene. -/
def initState (gs : List GateData) : CVState :=
  { n_qubits := 3, circuit := [], gates := gatesFrom gs,
    scene := List.range gs.length, palette_gate := none,
    reserved_columns := [], oracle_present := false }

/-- Release gate `gid` exactly at the center of cell `(r, c)`. -/
def snapAt (s : CVState) (gid r c : Nat) : CVState :=
  snap_gate s gid (X_OFFSET + (c : Int) * CELL_WIDTH) (Y_OFFSET + (r : Int) * ROW_HEIGHT)

/-! Trace for the target-per-column claim: gate 0 is an `H`, gates 1 and 2
are `X_T` targets.  Place `H` at (0,0), a target at (1,0), a target at
(0,1); then drag the `H` from (0,0) onto the occupied cell (0,1). -/

def c1Gates : List GateData := [mkGate GType.H, mkGate GType.X_T, mkGate GType.X_T]

def c1s1 : CVState := snapAt (initState c1Gates) 0 0 0

def c1s2 : CVState := snapAt c1s1 1 1 0

def c1s3 : CVState := snapAt c1s2 2 0 1

def c1Final : CVState := snapAt c1s3 0 0 1

/-! Trace for the swap claims: gate 0 is an `H` at (0,0), gate 1 an `X_T`
at (1,0); then the `H` is dragged onto the occupied cell (1,0) of its own
column. -/

def c3Gates : List GateData := [mkGate GType.H, mkGate GType.X_T]

def c3s1 : CVState := snapAt (initState c3Gates) 0 0 0

def c3s2 : CVState := snapAt c3s1 1 1 0

def c3Final : CVState := snapAt c3s2 0 1 0

/-! Trace for the measure-per-row claim: gates 0 and 1 are `MEASURE`,
gate 2 an `H`.  Measures at (0,5) and (1,1), `H` at (0,0); then the `H` is
dragged onto the occupied cell (1,1). -/

def c5Gates : List GateData := [mkGate GType.MEASURE, mkGate GType.MEASURE, mkGate GType.H]

def c5s1 : CVState := snapAt (initState c5Gates) 0 0 5

def c5s2 : CVState := snapAt c5s1 1 1 1

def c5s3 : CVState := snapAt c5s2 2 0 0

def c5Final : CVState := snapAt c5s3 2 1 1

/-! Trace for the reserved-column claims: the oracle reserves column 8,
gate 0 is an `H` committed at (0,0), then dropped on cell (0,8). -/

def c2Gates : List GateData := [mkGate GType.H]

def c2s0 : CVState := insert_oracle_gate (initState c2Gates)

def c2s1 : CVState := snapAt c2s0 0 0 0

def c2Final : CVState := snapAt c2s1 0 0 8

/-- Registry state for the export-order counterexample: a `MEASURE` at
(0,0) and an `H` at (1,0) — both in column 0. -/
def c8State : CVState :=
  { initState [mkGate GType.MEASURE, mkGate GType.H] with
    circuit := [((0, 0), 0), ((1, 0), 1)] }

/-- Concrete two-gate state used to witness the qubit-lifecycle theorem. -/
def c6State : CVState :=
  { initState [mkGate GType.H, mkGate GType.X] with
    circuit := [((0, 0), 0), ((2, 3), 1)] }

/-- Registry state witnessing the compile-order theorem: `H` at (0,0),
`CTRL` at (0,1), `X_T` at (1,1), `MEASURE` at (0,2). -/
def c7State : CVState :=
  { initState [mkGate GType.H, mkGate GType.CTRL, mkGate GType.X_T, mkGate GType.MEASURE] with
    circuit := [((0, 0), 0), ((0, 1), 1), ((1, 1), 2), ((0, 2), 3)] }

/-- Two states holding the same registry entries in different insertion
orders, for the determinism witness. -/
def c9StateA : CVState :=
  { initState [mkGate GType.H, mkGate GType.X_T] with
    circuit := [((0, 0), 0), ((1, 2), 1)] }

def c9StateB : CVState :=
  { initState [mkGate GType.H, mkGate GType.X_T] with
    circuit := [((1, 2), 1), ((0, 0), 0)] }

/-! ## Theorems for the claims -/

/-- C1: the claim — after any sequence of `snap_gate` placements every
column holds at most one `X_T`/`Z_T` gate — fails on the code.  From the
initial state, placing `H` at (0,0), `X_T` at (1,0) and `X_T` at (0,1)
keeps one target per column, but the next `snap_gate` drop of the `H` onto
the occupied cell (0,1) swaps the `X_T` occupant back into column 0, whose
existing target the swap path never re-checks: column 0 ends with two
registered target gates. -/
theorem C1_target_per_column_violated :
    countTargetsCol c1s3 0 = 1 ∧ countTargetsCol c1s3 1 = 1 ∧
    countTargetsCol c1Final 0 = 2 := by decide

/-- C2: the claim — a gate with a prior committed cell is never removed
from the registry by an invalid drop without being re-placed — fails on the
code.  Gate 0 (`H`) is committed at (0,0) (and its fields say so), column 8
is reserved, and dropping it on cell (0,8) ends with an empty registry:
the reserved-column branch runs after the old entry was deleted and never
re-inserts it. -/
theorem C2_reserved_drop_loses_committed_gate :
    lookupCell c2s1.circuit (0, 0) = some 0 ∧ (c2s1.gates 0).pos = some (0, 0) ∧
    8 ∈ c2s1.reserved_columns ∧
    c2Final.circuit = [] := by decide

/-- C3: the claim — releasing a gate with a prior committed cell onto a
valid, non-reserved cell occupied by a different gate always swaps the two
gates — fails on the code.  Gate 0 (`H`, committed at (0,0)) is dropped on
cell (1,0), which is in bounds, unreserved and occupied by gate 1 (`X_T`):
the post-swap `_is_valid_column` re-check counts the occupant under both
its old and new dict keys, rolls the swap back, and both gates keep their
registry cells. -/
theorem C3_same_column_swap_does_not_swap :
    lookupCell c3s2.circuit (0, 0) = some 0 ∧ lookupCell c3s2.circuit (1, 0) = some 1 ∧
    (c3s2.gates 0).pos = some (0, 0) ∧ c3s2.reserved_columns = [] ∧
    lookupCell c3Final.circuit (0, 0) = some 0 ∧
    lookupCell c3Final.circuit (1, 0) = some 1 := by decide

/-- C4: the claim — a drop on a reserved column reverts a previously
committed gate to its prior cell "visually and in the registry" — fails on
the registry half.  After dropping the committed `H` of cell (0,0) on the
reserved column 8, its scene position is restored to cell (0,0) but the
registry holds neither its old cell (0,0) nor the reserved cell (0,8). -/
theorem C4_reserved_drop_reverts_only_visually :
    8 ∈ c2s0.reserved_columns ∧ lookupCell c2s1.circuit (0, 0) = some 0 ∧
    (c2Final.gates 0).scenePos = cellTopLeft 0 0 ∧
    lookupCell c2Final.circuit (0, 0) = none ∧
    lookupCell c2Final.circuit (0, 8) = none := by decide

/-- C5: the claim — every row ever holds at most one `MEASURE` gate — fails
on the code.  With measures at (0,5) and (1,1) and an `H` at (0,0) (one
measure per row), dragging the `H` onto the occupied cell (1,1) swaps the
`MEASURE` occupant into row 0, which the swap path never re-checks: row 0
ends with two registered measures. -/
theorem C5_measure_per_row_violated :
    countMeasuresRow c5s3 0 = 1 ∧ countMeasuresRow c5s3 1 = 1 ∧
    countMeasuresRow c5Final 0 = 2 := by decide

/-- C10: the claim — after any `snap_gate` call every registry entry's gate
has `row`/`col` fields equal to its key, including after a rolled-back
swap — fails on the code.  In the rolled-back swap of the C3 trace, gate 1
stays registered at its key (1,0) while its fields, set by the swap and
never restored by the rollback, point at (0,0). -/
theorem C10_key_field_consistency_violated :
    lookupCell c3Final.circuit (1, 0) = some 1 ∧
    (c3Final.gates 1).pos = some (0, 0) := by decide

/-- C8 counterexample: for the registry state with a `MEASURE` at (0,0) and
an `H` at (1,0), `export_qiskit` emits the measure statement before the
Hadamard while `build_qiskit_circuit` applies the Hadamard before the
measure — the export order differs from the compiled order. -/
theorem C8_counterexample :
    exportOps (export_gate_infos c8State) = [Op.measure 0 0, Op.h 1] ∧
    buildOps (export_gate_infos c8State) = [Op.h 1, Op.measure 0 0] ∧
    exportOps (export_gate_infos c8State) ≠ buildOps (export_gate_infos c8State) := by
  decide

/-! ### Qubit-count lifecycle (C6) -/

theorem draw_all_n_qubits (s : CVState) : (draw_all s).n_qubits = s.n_qubits := rfl

theorem draw_all_circuit (s : CVState) :
    (draw_all s).circuit = s.circuit.filter (fun e => decide (e.1.1 < s.n_qubits)) := rfl

/-- C6: the qubit count stays in [1, 8]; `add_q` at 8 and `del_q` at 1 are
no-ops leaving the whole state (hence the registry) unchanged; a successful
`del_q` removes exactly the registry entries of the topmost row
`n_qubits − 1` and decrements the count, keeping all other rows. -/
theorem C6_qubit_lifecycle (s : CVState)
    (hlo : 1 ≤ s.n_qubits) (hhi : s.n_qubits ≤ MAX_QUBITS)
    (hrows : ∀ e ∈ s.circuit, e.1.1 < s.n_qubits) :
    (1 ≤ (add_q s).n_qubits ∧ (add_q s).n_qubits ≤ MAX_QUBITS) ∧
    (1 ≤ (del_q s).n_qubits ∧ (del_q s).n_qubits ≤ MAX_QUBITS) ∧
    (s.n_qubits = MAX_QUBITS → add_q s = s) ∧
    (s.n_qubits = 1 → del_q s = s) ∧
    (1 < s.n_qubits →
      (del_q s).n_qubits = s.n_qubits - 1 ∧
      (del_q s).circuit = s.circuit.filter (fun e => decide (e.1.1 ≠ s.n_qubits - 1))) := by
  have hMAX : MAX_QUBITS = 8 := rfl
  refine ⟨?_, ?_, ?_, ?_, ?_⟩
  · unfold add_q
    split
    · omega
    · rw [draw_all_n_qubits]
      dsimp only
      omega
  · unfold del_q
    split
    · omega
    · rw [draw_all_n_qubits]
      dsimp only
      omega
  · intro h8
    unfold add_q
    rw [if_pos (by omega)]
  · intro h1
    unfold del_q
    rw [if_pos (by omega)]
  · intro hgt
    unfold del_q
    rw [if_neg (by omega)]
    refine ⟨rfl, ?_⟩
    rw [draw_all_circuit]
    dsimp only
    rw [List.filter_filter]
    apply List.filter_congr
    intro e he
    have := hrows e he
    simp only [Bool.and_eq_true, decide_eq_true_eq, Bool.and_iff_right_iff_imp]
    omega

theorem C6_qubit_lifecycle_witness :
    (1 ≤ c6State.n_qubits ∧ c6State.n_qubits ≤ MAX_QUBITS ∧
      ∀ e ∈ c6State.circuit, e.1.1 < c6State.n_qubits) ∧
    ((1 ≤ (add_q c6State).n_qubits ∧ (add_q c6State).n_qubits ≤ MAX_QUBITS) ∧
    (1 ≤ (del_q c6State).n_qubits ∧ (del_q c6State).n_qubits ≤ MAX_QUBITS) ∧
    (c6State.n_qubits = MAX_QUBITS → add_q c6State = c6State) ∧
    (c6State.n_qubits = 1 → del_q c6State = c6State) ∧
    (1 < c6State.n_qubits →
      (del_q c6State).n_qubits = c6State.n_qubits - 1 ∧
      (del_q c6State).circuit =
        c6State.circuit.filter (fun e => decide (e.1.1 ≠ c6State.n_qubits - 1)))) :=
  ⟨⟨by decide, by decide, by decide⟩,
    C6_qubit_lifecycle c6State (by decide) (by decide) (by decide)⟩

/-! ### Compiled-sequence ordering (C7) -/

theorem filter_xz_split (ops : List GateInfo) :
    (ops.filter (fun g => decide (g.gate_type = GType.X_T))).length +
      (ops.filter (fun g => decide (g.gate_type = GType.Z_T))).length =
    (ops.filter (fun g =>
      decide (g.gate_type = GType.X_T ∨ g.gate_type = GType.Z_T))).length := by
  induction ops with
  | nil => rfl
  | cons a t ih =>
    by_cases hX : a.gate_type = GType.X_T
    · rw [List.filter_cons_of_pos (by simp [hX]),
        List.filter_cons_of_neg (by simp [hX]),
        List.filter_cons_of_pos (by simp [hX])]
      simp only [List.length_cons]
      omega
    · by_cases hZ : a.gate_type = GType.Z_T
      · rw [List.filter_cons_of_neg (by simp [hX]),
          List.filter_cons_of_pos (by simp [hZ]),
          List.filter_cons_of_pos (by simp [hZ])]
        simp only [List.length_cons]
        omega
      · rw [List.filter_cons_of_neg (by simp [hX]),
          List.filter_cons_of_neg (by simp [hZ]),
          List.filter_cons_of_neg (by simp [hX, hZ])]
        exact ih

theorem ctOps_length_le (ops : List GateInfo)
    (h : (ops.filter (fun g =>
      decide (g.gate_type = GType.X_T ∨ g.gate_type = GType.Z_T))).length ≤ 1) :
    (ctOps ops).length ≤ 1 := by
  have key := filter_xz_split ops
  rcases hfx : ops.filter (fun g => decide (g.gate_type = GType.X_T)) with _ | ⟨x1, xrest⟩ <;>
    rcases hfz : ops.filter (fun g => decide (g.gate_type = GType.Z_T)) with _ | ⟨z1, zrest⟩ <;>
      rw [hfx, hfz] at key <;> simp only [List.length_cons, List.length_nil] at key
  · simp [ctOps, hfx, hfz]
  · cases zrest <;> simp [ctOps, hfx, hfz]
  · cases xrest <;> simp [ctOps, hfx, hfz]
  · omega

theorem ctOps_col_length_le (infos : List GateInfo)
    (hT : ∀ c ∈ infos.map (fun g => g.col),
      (infos.filter (fun g =>
        decide (g.gate_type = GType.X_T ∨ g.gate_type = GType.Z_T) &&
        decide (g.col = c))).length ≤ 1) (c : Nat) :
    (ctOps (infos.filter (fun g => decide (g.col = c)))).length ≤ 1 := by
  apply ctOps_length_le
  rw [List.filter_filter]
  by_cases hc : c ∈ infos.map (fun g => g.col)
  · exact hT c hc
  · have hnil : infos.filter (fun g =>
        decide (g.gate_type = GType.X_T ∨ g.gate_type = GType.Z_T) &&
        decide (g.col = c)) = [] := by
      rw [List.filter_eq_nil_iff]
      intro g hg hcontra
      rw [Bool.and_eq_true, decide_eq_true_eq, decide_eq_true_eq] at hcontra
      exact hc (hcontra.2 ▸ List.mem_map_of_mem (fun g => g.col) hg)
    rw [hnil]
    simp

/-- C7: the compiled sequence is the concatenation of per-column groups in
ascending column order — the sorted distinct columns of the registry — and
within each column applies the single-qubit operations first, then the
control/target block, then the measurements (so a Hadamard sharing a column
with a Measure is applied first); under the single-target-per-column
invariant the control/target block holds at most one operation. -/
theorem C7_compile_order (s : CVState)
    (hT : ∀ c ∈ (export_gate_infos s).map (fun g => g.col),
      ((export_gate_infos s).filter (fun g =>
        decide (g.gate_type = GType.X_T ∨ g.gate_type = GType.Z_T) &&
        decide (g.col = c))).length ≤ 1) :
    buildOps (export_gate_infos s) =
      (colsSorted (export_gate_infos s)).flatMap (fun c =>
        ((export_gate_infos s).filter (fun g => decide (g.col = c))).filterMap singleOp ++
        ctOps ((export_gate_infos s).filter (fun g => decide (g.col = c))) ++
        ((export_gate_infos s).filter (fun g => decide (g.col = c))).filterMap measOp) ∧
    List.Sorted (· ≤ ·) (colsSorted (export_gate_infos s)) ∧
    (colsSorted (export_gate_infos s)).Perm
      ((export_gate_infos s).map (fun g => g.col)).dedup ∧
    (∀ c, (ctOps ((export_gate_infos s).filter (fun g => decide (g.col = c)))).length ≤ 1) := by
  refine ⟨rfl, ?_, ?_, ctOps_col_length_le _ hT⟩
  · exact List.sorted_insertionSort _ _
  · exact List.perm_insertionSort _ _

theorem C7_compile_order_witness :
    (∀ c ∈ (export_gate_infos c7State).map (fun g => g.col),
      ((export_gate_infos c7State).filter (fun g =>
        decide (g.gate_type = GType.X_T ∨ g.gate_type = GType.Z_T) &&
        decide (g.col = c))).length ≤ 1) ∧
    (buildOps (export_gate_infos c7State) =
      (colsSorted (export_gate_infos c7State)).flatMap (fun c =>
        ((export_gate_infos c7State).filter (fun g => decide (g.col = c))).filterMap singleOp ++
        ctOps ((export_gate_infos c7State).filter (fun g => decide (g.col = c))) ++
        ((export_gate_infos c7State).filter (fun g => decide (g.col = c))).filterMap measOp) ∧
    List.Sorted (· ≤ ·) (colsSorted (export_gate_infos c7State)) ∧
    (colsSorted (export_gate_infos c7State)).Perm
      ((export_gate_infos c7State).map (fun g => g.col)).dedup ∧
    (∀ c, (ctOps ((export_gate_infos c7State).filter
      (fun g => decide (g.col = c)))).length ≤ 1)) :=
  ⟨by decide, C7_compile_order c7State (by decide)⟩

/-! ### Export vs. compiled sequence (C8) -/

theorem smOp_cases (g : GateInfo) :
    (smOp g = singleOp g ∧ measOp g = none) ∨ (smOp g = measOp g ∧ singleOp g = none) := by
  cases hg : g.gate_type <;> simp [smOp, singleOp, measOp, hg]

theorem filterMap_smOp_perm (l : List GateInfo) :
    (l.filterMap smOp).Perm (l.filterMap singleOp ++ l.filterMap measOp) := by
  induction l with
  | nil => exact List.Perm.refl _
  | cons a t ih =>
    rcases smOp_cases a with ⟨h1, h2⟩ | ⟨h1, h2⟩
    · cases hs : singleOp a with
      | none =>
        simp only [List.filterMap_cons, h1, h2, hs]
        exact ih
      | some v =>
        simp only [List.filterMap_cons, h1, h2, hs]
        exact ih.cons v
    · cases hm : measOp a with
      | none =>
        simp only [List.filterMap_cons, h1, h2, hm]
        exact ih
      | some v =>
        simp only [List.filterMap_cons, h1, h2, hm]
        exact (ih.cons v).trans List.perm_middle.symm

theorem exportColGroup_perm (ops : List GateInfo) :
    (exportColGroup ops).Perm (buildColGroup ops) := by
  unfold exportColGroup buildColGroup
  refine ((filterMap_smOp_perm ops).append_right _).trans ?_
  rw [List.append_assoc, List.append_assoc]
  exact List.Perm.append_left _ List.perm_append_comm

/-- C8, amended: for every list of gate infos the export emits exactly the
same statements as the compiled operation sequence, grouped by the same
columns in the same ascending order — each column's emitted statements are
a permutation of that column's compiled operations (hence one statement per
operation) — but within a column the measurement statements are emitted
among the single-qubit statements, before the control/target statement,
rather than after it as the compiler applies them. -/
theorem C8_export_matches_up_to_measure_position (infos : List GateInfo) :
    exportOps infos =
      (colsSorted infos).flatMap
        (fun c => exportColGroup (infos.filter (fun g => decide (g.col = c)))) ∧
    (∀ c, (exportColGroup (infos.filter (fun g => decide (g.col = c)))).Perm
      (buildColGroup (infos.filter (fun g => decide (g.col = c))))) ∧
    (exportOps infos).Perm (buildOps infos) := by
  refine ⟨rfl, fun c => exportColGroup_perm _, ?_⟩
  exact List.Perm.flatMap_left _ (fun c _ => exportColGroup_perm _)

/-! ### Compiler determinism (C9) -/

theorem infoLe_antisymm_key {x y : GateInfo} (h1 : infoLe x y) (h2 : infoLe y x) :
    (x.col, x.row) = (y.col, y.row) := by
  unfold infoLe at h1 h2
  have : x.col = y.col ∧ x.row = y.row := by omega
  rw [this.1, this.2]

theorem eq_of_perm_of_sorted_of_key_nodup :
    ∀ {l1 l2 : List GateInfo}, l1.Perm l2 → l1.Sorted infoLe → l2.Sorted infoLe →
      (l1.map (fun g => (g.col, g.row))).Nodup → l1 = l2 := by
  intro l1
  induction l1 with
  | nil =>
    intro l2 hp _ _ _
    exact hp.nil_eq
  | cons a t ih =>
    intro l2 hp hs1 hs2 hnd
    cases l2 with
    | nil => exact absurd hp.symm.nil_eq (by simp)
    | cons b t2 =>
      have hab : a = b := by
        by_contra hne
        have hbmem : b ∈ a :: t := hp.symm.subset (List.mem_cons_self b t2)
        have hamem : a ∈ b :: t2 := hp.subset (List.mem_cons_self a t)
        have hbt : b ∈ t := by
          cases List.mem_cons.mp hbmem with
          | inl h => exact absurd h.symm hne
          | inr h => exact h
        have hat2 : a ∈ t2 := by
          cases List.mem_cons.mp hamem with
          | inl h => exact absurd h hne
          | inr h => exact h
        have h1 : infoLe a b := List.rel_of_sorted_cons hs1 b hbt
        have h2 : infoLe b a := List.rel_of_sorted_cons hs2 a hat2
        have hkey := infoLe_antisymm_key h1 h2
        have : (a.col, a.row) ∉ t.map (fun g => (g.col, g.row)) :=
          (List.nodup_cons.mp hnd).1
        exact this (hkey ▸ List.mem_map_of_mem (fun g => (g.col, g.row)) hbt)
      subst hab
      have htail : t = t2 :=
        ih (hp.cons_inv) hs1.of_cons hs2.of_cons (List.nodup_cons.mp hnd).2
      rw [htail]

/-- C9: compilation is a deterministic function of the registry's contents
as a mapping — two states holding the same cell→gate entries (in any
insertion order, with the shared gate store and unique cell keys) export
the identical sorted gate-info list and hence the identical compiled
operation sequence. -/
theorem C9_compiler_determinism (s1 s2 : CVState) (hg : s1.gates = s2.gates)
    (hperm : s1.circuit.Perm s2.circuit)
    (hnd : (s1.circuit.map Prod.fst).Nodup) :
    export_gate_infos s1 = export_gate_infos s2 ∧
    buildOps (export_gate_infos s1) = buildOps (export_gate_infos s2) := by
  have hmain : export_gate_infos s1 = export_gate_infos s2 := by
    unfold export_gate_infos
    rw [hg]
    apply eq_of_perm_of_sorted_of_key_nodup
    · exact ((List.perm_insertionSort _ _).trans (hperm.map _)).trans
        (List.perm_insertionSort _ _).symm
    · exact List.sorted_insertionSort _ _
    · exact List.sorted_insertionSort _ _
    · have hswap : Function.Injective (fun p : Nat × Nat => (p.2, p.1)) := by
        intro p q hpq
        cases p
        cases q
        simpa [Prod.ext_iff, and_comm] using hpq
      have heq : (s1.circuit.map (fun e => toInfo e.1.1 e.1.2 (s2.gates e.2))).map
          (fun g => (g.col, g.row)) =
          (s1.circuit.map Prod.fst).map (fun p => (p.2, p.1)) := by
        rw [List.map_map, List.map_map]
        rfl
      have hnd2 : ((s1.circuit.map (fun e => toInfo e.1.1 e.1.2 (s2.gates e.2))).map
          (fun g => (g.col, g.row))).Nodup := heq ▸ hnd.map hswap
      exact (((List.perm_insertionSort infoLe _).map _).nodup_iff).mpr hnd2
  exact ⟨hmain, by rw [hmain]⟩

theorem C9_compiler_determinism_witness :
    (c9StateA.gates = c9StateB.gates ∧ c9StateA.circuit.Perm c9StateB.circuit ∧
      (c9StateA.circuit.map Prod.fst).Nodup) ∧
    (export_gate_infos c9StateA = export_gate_infos c9StateB ∧
      buildOps (export_gate_infos c9StateA) = buildOps (export_gate_infos c9StateB)) :=
  ⟨⟨rfl, by decide, by decide⟩,
    C9_compiler_determinism c9StateA c9StateB rfl (by decide) (by decide)⟩

end QCComposer
